import Mathlib

/-!
Verification of the repository-publish workflow implemented in
src/app/components/@settings/tabs/connections/components/PushToGitHubDialog.tsx.

The development shallowly embeds the two functions that carry the logic of the
dialog, handleSubmit and fetchRecentRepos, as pure Lean functions over an
explicit environment.  External collaborators (the credential store, the
Octokit existence lookup, the onPush executor, window.confirm, the workbench
file map) are supplied as data inside the environment; the functions return
the outcome together with a trace of the observable effects (remote calls
issued with their arguments, confirmation prompts shown, credential-store
invalidation, toast and log messages).
-/

namespace PushDialog

/-- JS String.prototype.trim: strip leading and trailing whitespace. -/
def jsTrim (s : String) : String :=
  String.mk (((s.data.dropWhile Char.isWhitespace).reverse.dropWhile Char.isWhitespace).reverse)

/-- JS s.substring(0, n): the first n characters of s. -/
def substringTo (s : String) (n : Nat) : String :=
  String.mk (s.data.take n)

/-! ## Workspace file map and manifest (ContentSelector) -/

/-- An entry of the workbench FileMap: a file dirent (content plus binary
flag) or a folder dirent.  The map may also hold undefined entries, modelled
with Option at the use site. -/
inductive Dirent where
  | file (content : String) (isBinary : Bool)
  | folder
deriving DecidableEq, Repr

/-- The workbench file map, as the ordered list of Object.entries. -/
abbrev FileMap := List (String × Option Dirent)

/-- A pushed-files manifest entry: relative path and byte size. -/
structure ManifestEntry where
  path : String
  size : Nat
deriving DecidableEq, Repr

/-- Modelled from the spec: extractRelativePath comes from a module that is
not under src/ (utils/diff); per the spec it strips the workspace-root
prefix from the internal absolute path. -/
def workspaceRoot : String := "/home/project/"

/-- Modelled from the spec: strip the workspace-root prefix when present. -/
def extractRelativePath (p : String) : String :=
  if p.data.take workspaceRoot.data.length = workspaceRoot.data then
    String.mk (p.data.drop workspaceRoot.data.length)
  else p

/-- The filter predicate of handleSubmit line 188:
dirent?.type === 'file' && !dirent.isBinary. -/
def includedEntry : String × Option Dirent → Bool
  | (_, some (Dirent.file _ isBinary)) => !isBinary
  | _ => false

/-- The map step of handleSubmit lines 189-192: relative path plus the length
of the UTF-8 encoding of the content (new TextEncoder().encode(content).length).
For a non-file dirent the JS cast (dirent as File).content is undefined and
the fallback content is the empty string; that branch is unreachable after
the filter. -/
def mkManifestEntry : String × Option Dirent → ManifestEntry
  | (p, some (Dirent.file content _)) => { path := extractRelativePath p, size := content.utf8ByteSize }
  | (p, _) => { path := extractRelativePath p, size := "".utf8ByteSize }

/-- handleSubmit lines 187-192: the pushed-files list, a filter of the file
map to the non-binary file dirents followed by the manifest-entry map. -/
def filesList (files : FileMap) : List ManifestEntry :=
  (files.filter includedEntry).map mkManifestEntry

/-- Count of file dirents (binary or not) in a file map. -/
def fileEntryCount (files : FileMap) : Nat :=
  files.countP fun pd => match pd with
    | (_, some (Dirent.file _ _)) => true
    | _ => false

/-- Count of binary file dirents in a file map. -/
def binaryFileEntryCount (files : FileMap) : Nat :=
  files.countP fun pd => match pd with
    | (_, some (Dirent.file _ isBinary)) => isBinary
    | _ => false

/-! ## The handleSubmit pipeline -/

/-- The github_connection record from the credential store.  userLogin is
some login when connection.user is truthy; token is none when the token
field is absent (JS undefined or null). -/
structure Connection where
  userLogin : Option String
  token : Option String
deriving DecidableEq, Repr

/-- JS truthiness of connection?.token: present and not the empty string. -/
def tokenTruthy : Option String → Bool
  | none => false
  | some t => t ≠ ""

/-- A value thrown by a remote call: whether it is an Error instance, and
the value of its status property when it has one. -/
structure ThrownValue where
  isErrorInstance : Bool
  status : Option Int
deriving DecidableEq, Repr

/-- Result of the octokit.repos.get existence lookup: it either resolves
(the repository exists and is accessible) or throws a value. -/
inductive LookupResult where
  | ok
  | threw (e : ThrownValue)
deriving DecidableEq

/-- Result of the onPush executor: the repository URL, or a thrown value. -/
inductive PushResult where
  | ok (url : String)
  | threw (e : ThrownValue)
deriving DecidableEq

/-- The environment of one handleSubmit run: the stored connection, the form
state, and the behaviour of the external collaborators.  lookupResult and
pushResult are indexed by the repository-name argument the code passes them
(the owner, token and visibility arguments also passed by the code do not
vary within one run and are elided). -/
structure Env where
  connection : Option Connection
  repoName : String
  isPrivate : Bool
  lookupResult : String → LookupResult
  confirmResult : Bool
  pushResult : String → PushResult
  files : FileMap

/-- Observable effects of one handleSubmit run: the repo-name arguments of
the issued existence lookups and onPush calls, how many times
window.confirm was shown, and whether the stored credential was removed. -/
structure Trace where
  lookupCalls : List String
  confirmCalls : Nat
  pushCalls : List String
  credentialCleared : Bool
deriving DecidableEq, Repr

/-- The outcome of one handleSubmit run.  blockedNoCredential and
blockedEmptyName are the two local-validation toasts; cancelled is the
silent return after a declined overwrite confirmation; failed carries the
toast message of the outer catch. -/
inductive Outcome where
  | blockedNoCredential
  | blockedEmptyName
  | cancelled
  | succeeded (url : String) (manifest : List ManifestEntry)
  | failed (message : String)
deriving DecidableEq, Repr

/-- Toast of handleSubmit line 140. -/
def connectFirstMsg : String :=
  "Please connect your GitHub account in Settings > Connections first"

/-- Toast of handleSubmit line 145. -/
def repoNameRequiredMsg : String := "Repository name is required"

/-- Toast of the outer catch, handleSubmit line 198. -/
def genericPushFailMsg : String :=
  "Failed to push to GitHub. Please check your repository name and try again."

/-- The rethrow condition of handleSubmit line 177:
error instanceof Error && 'status' in error && error.status !== 404. -/
def shouldRethrow (e : ThrownValue) : Bool :=
  e.isErrorInstance && e.status.isSome && e.status != some 404

/-- handleSubmit lines 182-195: call onPush with the (untrimmed) repoName,
then on success compute the pushed-files manifest; a thrown value reaches
the outer catch. -/
def pushStep (env : Env) (lookupCalls : List String) (confirmCalls : Nat) : Outcome × Trace :=
  match env.pushResult env.repoName with
  | PushResult.ok url =>
      (Outcome.succeeded url (filesList env.files),
       { lookupCalls := lookupCalls, confirmCalls := confirmCalls,
         pushCalls := [env.repoName], credentialCleared := false })
  | PushResult.threw _ =>
      (Outcome.failed genericPushFailMsg,
       { lookupCalls := lookupCalls, confirmCalls := confirmCalls,
         pushCalls := [env.repoName], credentialCleared := false })

/-- handleSubmit lines 134-202.  Gate on the stored connection
(!connection?.token || !connection?.user) and on repoName.trim(); then the
existence lookup octokit.repos.get with the untrimmed repoName; on success
the window.confirm overwrite prompt (decline returns silently); a thrown
lookup value is swallowed unless it is an Error instance with a status
property other than 404, in which case it is rethrown to the outer catch;
then onPush and the manifest.  The outer catch maps every thrown value to
the one generic toast. -/
def handleSubmit (env : Env) : Outcome × Trace :=
  match env.connection with
  | none =>
      (Outcome.blockedNoCredential,
       { lookupCalls := [], confirmCalls := 0, pushCalls := [], credentialCleared := false })
  | some conn =>
      if tokenTruthy conn.token = false ∨ conn.userLogin = none then
        (Outcome.blockedNoCredential,
         { lookupCalls := [], confirmCalls := 0, pushCalls := [], credentialCleared := false })
      else if jsTrim env.repoName = "" then
        (Outcome.blockedEmptyName,
         { lookupCalls := [], confirmCalls := 0, pushCalls := [], credentialCleared := false })
      else
        match env.lookupResult env.repoName with
        | LookupResult.ok =>
            if env.confirmResult then
              pushStep env [env.repoName] 1
            else
              (Outcome.cancelled,
               { lookupCalls := [env.repoName], confirmCalls := 1,
                 pushCalls := [], credentialCleared := false })
        | LookupResult.threw e =>
            if shouldRethrow e then
              (Outcome.failed genericPushFailMsg,
               { lookupCalls := [env.repoName], confirmCalls := 0,
                 pushCalls := [], credentialCleared := false })
            else
              pushStep env [env.repoName] 0

/-! ## The fetchRecentRepos query -/

/-- A fetch Response as far as the code reads it. -/
structure FetchResponse where
  ok : Bool
  status : Int
  statusText : String
deriving DecidableEq, Repr

/-- Result of the fetch call: a response, or a thrown network error. -/
inductive FetchResult where
  | response (r : FetchResponse)
  | threw
deriving DecidableEq

/-- Observable effects of one fetchRecentRepos run: toasts, logStore error
messages, the console-log strings that are derived from the token, the
credential store after the run, and whether the repo list was stored. -/
structure FetchEffects where
  toasts : List String
  logErrorMsgs : List String
  tokenDerivedLogs : List String
  storeAfter : Option Connection
  reposLoaded : Bool
deriving DecidableEq, Repr

/-- Toast of fetchRecentRepos line 65. -/
def authRequiredMsg : String := "GitHub authentication required"

/-- Toast of fetchRecentRepos line 103. -/
def tokenExpiredMsg : String := "GitHub token expired. Please reconnect your account."

/-- Toast of fetchRecentRepos line 128. -/
def fetchThrewToastMsg : String := "Failed to fetch recent repositories"

/-- The tokenPrefix field of the console.log at lines 77-80:
cleanToken ? cleanToken.substring(0, 4) + "..." : "none". -/
def tokenPrefixLog (cleanToken : String) : String :=
  if cleanToken = "" then "none" else substringTo cleanToken 4 ++ "..."

/-- The authHeader field of the console.log at lines 77-80:
("token " + cleanToken).substring(0, 10) + "...". -/
def authHeaderLog (cleanToken : String) : String :=
  substringTo ("token " ++ cleanToken) 10 ++ "..."

/-- The tokenPrefix field of the console.error at lines 94-100:
cleanToken ? cleanToken.substring(0, 4) : "none". -/
def errorTokenPrefixLog (cleanToken : String) : String :=
  if cleanToken = "" then "none" else substringTo cleanToken 4

/-- fetchRecentRepos lines 62-132.  Gate on an empty or whitespace-only
token; log the token-format diagnostics; then on a non-ok response either
the 401 branch (token-expired toast plus credential removal) or the generic
branch, and on a thrown fetch the catch branch. -/
def fetchRecentRepos (token : String) (store : Option Connection) (result : FetchResult) : FetchEffects :=
  if token = "" ∨ jsTrim token = "" then
    { toasts := [authRequiredMsg], logErrorMsgs := ["No GitHub token available"],
      tokenDerivedLogs := [], storeAfter := store, reposLoaded := false }
  else
    let cleanToken := jsTrim token
    let debugLogs := [tokenPrefixLog cleanToken, authHeaderLog cleanToken]
    match result with
    | FetchResult.threw =>
        { toasts := [fetchThrewToastMsg], logErrorMsgs := ["Failed to fetch GitHub repositories"],
          tokenDerivedLogs := debugLogs, storeAfter := store, reposLoaded := false }
    | FetchResult.response r =>
        if r.ok = false then
          if r.status = 401 then
            { toasts := [tokenExpiredMsg], logErrorMsgs := [],
              tokenDerivedLogs := debugLogs ++ [errorTokenPrefixLog cleanToken],
              storeAfter := none, reposLoaded := false }
          else
            { toasts := ["Failed to fetch repositories: " ++ r.statusText],
              logErrorMsgs := ["Failed to fetch GitHub repositories"],
              tokenDerivedLogs := debugLogs ++ [errorTokenPrefixLog cleanToken],
              storeAfter := store, reposLoaded := false }
        else
          { toasts := [], logErrorMsgs := [],
            tokenDerivedLogs := debugLogs, storeAfter := store, reposLoaded := true }

/-! ## Helper lemmas about the manifest -/

theorem binaryCount_le_fileCount (files : FileMap) :
    binaryFileEntryCount files ≤ fileEntryCount files := by
  unfold binaryFileEntryCount fileEntryCount
  induction files with
  | nil => simp
  | cons pd rest ih =>
      rcases pd with ⟨p, od⟩
      rcases od with _ | d
      · simpa [List.countP_cons] using ih
      · cases d with
        | folder => simpa [List.countP_cons] using ih
        | file c b => cases b <;> simp [List.countP_cons] <;> omega

theorem filesList_length_eq (files : FileMap) :
    (filesList files).length = fileEntryCount files - binaryFileEntryCount files := by
  induction files with
  | nil => rfl
  | cons pd rest ih =>
      have hle := binaryCount_le_fileCount rest
      unfold binaryFileEntryCount fileEntryCount at hle
      rcases pd with ⟨p, od⟩
      rcases od with _ | d
      · simpa [filesList, fileEntryCount, binaryFileEntryCount, List.countP_cons,
          List.filter_cons, includedEntry] using ih
      · cases d with
        | folder =>
            simpa [filesList, fileEntryCount, binaryFileEntryCount, List.countP_cons,
              List.filter_cons, includedEntry] using ih
        | file c b =>
            cases b <;>
              simp [filesList, fileEntryCount, binaryFileEntryCount, List.countP_cons,
                List.filter_cons, includedEntry] at ih ⊢ <;>
              omega

theorem mem_filesList_of_mem (files : FileMap) (p : String) (c : String)
    (h : (p, some (Dirent.file c false)) ∈ files) :
    mkManifestEntry (p, some (Dirent.file c false)) ∈ filesList files := by
  unfold filesList
  exact List.mem_map_of_mem _ (List.mem_filter.mpr ⟨h, by simp [includedEntry]⟩)

theorem exists_src_of_mem_filesList (files : FileMap) (e : ManifestEntry)
    (h : e ∈ filesList files) :
    ∃ p c, (p, some (Dirent.file c false)) ∈ files ∧
      e = mkManifestEntry (p, some (Dirent.file c false)) := by
  unfold filesList at h
  rcases List.mem_map.mp h with ⟨x, hx, he⟩
  rcases List.mem_filter.mp hx with ⟨hmem, hinc⟩
  rcases x with ⟨p, od⟩
  rcases od with _ | d
  · simp [includedEntry] at hinc
  · cases d with
    | folder => simp [includedEntry] at hinc
    | file c b =>
        cases b with
        | true => simp [includedEntry] at hinc
        | false => exact ⟨p, c, hmem, he.symm⟩

theorem filesList_append (l1 l2 : FileMap) :
    filesList (l1 ++ l2) = filesList l1 ++ filesList l2 := by
  simp [filesList, List.filter_append]

/-! ## Concrete inputs used by witnesses -/

/-- A workspace with one text file, one binary file and one folder. -/
def demoFiles : FileMap :=
  [("/home/project/src/a.ts", some (Dirent.file "x" false)),
   ("/home/project/logo.png", some (Dirent.file "PNG" true)),
   ("/home/project/src", some Dirent.folder)]

/-- A workspace with a single text file whose content has a multi-byte
character. -/
def helloFiles : FileMap :=
  [("/home/project/h.txt", some (Dirent.file "héllo" false))]

end PushDialog

namespace PushDialog

/-- C6: the pushed-files manifest of handleSubmit keeps exactly the file
dirents whose isBinary flag is false: every non-binary file dirent yields a
manifest entry, every manifest entry comes from a non-binary file dirent,
the manifest has fileCount minus binaryCount entries, and selection order is
preserved (the manifest map distributes over appending file maps). -/
theorem c6_manifest_nonbinary_files (files : FileMap) :
    (filesList files).length = fileEntryCount files - binaryFileEntryCount files ∧
    (∀ p c, (p, some (Dirent.file c false)) ∈ files →
      mkManifestEntry (p, some (Dirent.file c false)) ∈ filesList files) ∧
    (∀ e, e ∈ filesList files → ∃ p c, (p, some (Dirent.file c false)) ∈ files ∧
      e = mkManifestEntry (p, some (Dirent.file c false))) ∧
    (∀ rest : FileMap, filesList (files ++ rest) = filesList files ++ filesList rest) :=
  ⟨filesList_length_eq files,
   fun p c h => mem_filesList_of_mem files p c h,
   fun e h => exists_src_of_mem_filesList files e h,
   fun rest => filesList_append files rest⟩

/-- Witness for C6 at a concrete workspace: three dirents of which two are
file dirents and one of those is binary, so the manifest has one entry, and
the non-binary file contributes its entry. -/
theorem c6_witness :
    (filesList demoFiles).length = fileEntryCount demoFiles - binaryFileEntryCount demoFiles ∧
    mkManifestEntry ("/home/project/src/a.ts", some (Dirent.file "x" false)) ∈ filesList demoFiles :=
  ⟨(c6_manifest_nonbinary_files demoFiles).1,
   (c6_manifest_nonbinary_files demoFiles).2.1 "/home/project/src/a.ts" "x" (by decide)⟩

/-- C7: every manifest entry records as its size the byte length of the
UTF-8 encoding of the content of the file it came from; on the concrete
workspace holding one file with content hello-with-accent the manifest entry
has size 6 while the character count of the content is 5. -/
theorem c7_size_utf8_bytes :
    (∀ files : FileMap, ∀ e : ManifestEntry, e ∈ filesList files →
      ∃ p c, (p, some (Dirent.file c false)) ∈ files ∧ e.size = c.utf8ByteSize) ∧
    filesList helloFiles = [{ path := "h.txt", size := 6 }] ∧
    "héllo".length = 5 ∧ "héllo".utf8ByteSize = 6 := by
  refine ⟨?_, by decide, by decide, by decide⟩
  intro files e h
  rcases exists_src_of_mem_filesList files e h with ⟨p, c, hmem, he⟩
  exact ⟨p, c, hmem, by rw [he]; rfl⟩

/-- Witness for C7 at the concrete one-file workspace: the manifest entry of
the hello file has the UTF-8 byte size of its content. -/
theorem c7_witness :
    ∃ p c, (p, some (Dirent.file c false)) ∈ helloFiles ∧
      (ManifestEntry.mk "h.txt" 6).size = c.utf8ByteSize :=
  c7_size_utf8_bytes.1 helloFiles (ManifestEntry.mk "h.txt" 6) (by decide)

end PushDialog

namespace PushDialog

/-! ## Concrete environments used by witnesses and counterexamples -/

/-- A stored connection with a truthy user and token. -/
def goodConn : Connection := { userLogin := some "octo", token := some "ghp_tok123" }

/-- A baseline run: everything succeeds. -/
def baseEnv : Env :=
  { connection := some goodConn, repoName := "demo", isPrivate := false,
    lookupResult := fun _ => LookupResult.ok, confirmResult := true,
    pushResult := fun _ => PushResult.ok "https://github.com/octo/demo",
    files := demoFiles }

/-- The existence lookup throws an Error with status 404. -/
def env404 : Env := { baseEnv with lookupResult := fun _ => LookupResult.threw ⟨true, some 404⟩ }

/-- The existence lookup throws an Error with status 401. -/
def env401 : Env := { baseEnv with lookupResult := fun _ => LookupResult.threw ⟨true, some 401⟩ }

/-- The existence lookup throws a value that is not an Error instance. -/
def envNonError : Env := { baseEnv with lookupResult := fun _ => LookupResult.threw ⟨false, none⟩ }

/-- The existence lookup throws an Error with no status property. -/
def envNoStatus : Env := { baseEnv with lookupResult := fun _ => LookupResult.threw ⟨true, none⟩ }

/-- The repository exists and the overwrite confirmation is declined. -/
def envDecline : Env := { baseEnv with confirmResult := false }

/-- The stored token is a single space: whitespace-only but truthy. -/
def envWhitespaceTok : Env :=
  { baseEnv with connection := some { userLogin := some "octo", token := some " " } }

/-- The push executor throws an Error with status 401. -/
def envPush401 : Env :=
  { env404 with pushResult := fun _ => PushResult.threw ⟨true, some 401⟩ }

/-- The push executor throws an Error with status 422. -/
def envPush422 : Env :=
  { env404 with pushResult := fun _ => PushResult.threw ⟨true, some 422⟩ }

/-- The push executor throws a network error (not carrying a status). -/
def envPushNet : Env :=
  { baseEnv with pushResult := fun _ => PushResult.threw ⟨true, none⟩ }

/-- The form holds a repository name with surrounding whitespace. -/
def envSpacey : Env := { baseEnv with repoName := " demo " }

/-! ## Claims about the handleSubmit pipeline -/

/-- C1: past the local gates, a lookup failure that is an Error carrying
status 404 is treated as repository absent — the pipeline proceeds directly
to the push step and the overwrite confirmation is never shown — while a
lookup failure that is an Error carrying any other status is propagated out
of the resolver step to the outer handler: the run ends failed and onPush is
never invoked. -/
theorem c1_lookup_status_dispatch (env : Env) (conn : Connection)
    (hconn : env.connection = some conn)
    (htok : tokenTruthy conn.token = true)
    (huser : conn.userLogin ≠ none)
    (hname : jsTrim env.repoName ≠ "") :
    (env.lookupResult env.repoName = LookupResult.threw ⟨true, some 404⟩ →
      handleSubmit env = pushStep env [env.repoName] 0 ∧
      (handleSubmit env).2.pushCalls = [env.repoName] ∧
      (handleSubmit env).2.confirmCalls = 0) ∧
    (∀ s : Int, s ≠ 404 →
      env.lookupResult env.repoName = LookupResult.threw ⟨true, some s⟩ →
      handleSubmit env =
        (Outcome.failed genericPushFailMsg,
         { lookupCalls := [env.repoName], confirmCalls := 0,
           pushCalls := [], credentialCleared := false })) := by
  have hgate : ¬(tokenTruthy conn.token = false ∨ conn.userLogin = none) := by
    simp [htok, huser]
  constructor
  · intro hlook
    have hmain : handleSubmit env = pushStep env [env.repoName] 0 := by
      unfold handleSubmit
      rw [hconn]
      simp only [if_neg hgate, if_neg hname, hlook]
      simp [shouldRethrow]
    refine ⟨hmain, ?_, ?_⟩ <;> rw [hmain] <;> unfold pushStep <;>
      rcases hp : env.pushResult env.repoName with url | e <;> simp [hp]
  · intro s hs hlook
    unfold handleSubmit
    rw [hconn]
    simp only [if_neg hgate, if_neg hname, hlook]
    simp [shouldRethrow, hs]

/-- Witness for C1: with the baseline connection, a 404 lookup failure leads
to a push of the submitted name with no confirmation prompt, and a 401
lookup failure leads to the failed outcome with no push. -/
theorem c1_witness :
    ((handleSubmit env404).2.pushCalls = ["demo"] ∧
      (handleSubmit env404).2.confirmCalls = 0) ∧
    handleSubmit env401 =
      (Outcome.failed genericPushFailMsg,
       { lookupCalls := ["demo"], confirmCalls := 0,
         pushCalls := [], credentialCleared := false }) :=
  ⟨((c1_lookup_status_dispatch env404 goodConn rfl (by decide) (by decide) (by decide)).1 rfl).2,
   (c1_lookup_status_dispatch env401 goodConn rfl (by decide) (by decide) (by decide)).2
     401 (by decide) rfl⟩

/-- C2: when the existence lookup succeeds and the overwrite confirmation is
declined, the run ends with the cancelled (non-error) outcome and onPush is
never invoked: the trace records one confirmation prompt, one lookup, and no
push calls. -/
theorem c2_decline_cancels (env : Env) (conn : Connection)
    (hconn : env.connection = some conn)
    (htok : tokenTruthy conn.token = true)
    (huser : conn.userLogin ≠ none)
    (hname : jsTrim env.repoName ≠ "")
    (hlook : env.lookupResult env.repoName = LookupResult.ok)
    (hconf : env.confirmResult = false) :
    handleSubmit env =
      (Outcome.cancelled,
       { lookupCalls := [env.repoName], confirmCalls := 1,
         pushCalls := [], credentialCleared := false }) := by
  have hgate : ¬(tokenTruthy conn.token = false ∨ conn.userLogin = none) := by
    simp [htok, huser]
  unfold handleSubmit
  rw [hconn]
  simp only [if_neg hgate, if_neg hname, hlook]
  simp [hconf]

/-- Witness for C2: the concrete declined run is cancelled with no push. -/
theorem c2_witness :
    handleSubmit envDecline =
      (Outcome.cancelled,
       { lookupCalls := ["demo"], confirmCalls := 1,
         pushCalls := [], credentialCleared := false }) :=
  c2_decline_cancels envDecline goodConn rfl (by decide) (by decide) (by decide) rfl rfl

/-- C9: a lookup failure that is not an Error instance, or is an Error with
no status property, is swallowed: past the local gates the pipeline behaves
exactly as in the repository-absent case and proceeds to the push step. -/
theorem c9_nonstatus_swallowed (env : Env) (conn : Connection) (e : ThrownValue)
    (hconn : env.connection = some conn)
    (htok : tokenTruthy conn.token = true)
    (huser : conn.userLogin ≠ none)
    (hname : jsTrim env.repoName ≠ "")
    (hlook : env.lookupResult env.repoName = LookupResult.threw e)
    (he : e.isErrorInstance = false ∨ e.status = none) :
    handleSubmit env = pushStep env [env.repoName] 0 ∧
    (handleSubmit env).2.pushCalls = [env.repoName] := by
  have hgate : ¬(tokenTruthy conn.token = false ∨ conn.userLogin = none) := by
    simp [htok, huser]
  have hsr : shouldRethrow e = false := by
    rcases he with h | h <;> simp [shouldRethrow, h]
  have hmain : handleSubmit env = pushStep env [env.repoName] 0 := by
    unfold handleSubmit
    rw [hconn]
    simp only [if_neg hgate, if_neg hname, hlook]
    simp [hsr]
  refine ⟨hmain, ?_⟩
  rw [hmain]; unfold pushStep
  rcases hp : env.pushResult env.repoName with url | e2 <;> simp [hp]

/-- Witness for C9: a thrown non-Error value and a thrown Error without
status both reach the push step. -/
theorem c9_witness :
    (handleSubmit envNonError).2.pushCalls = ["demo"] ∧
    (handleSubmit envNoStatus).2.pushCalls = ["demo"] :=
  ⟨(c9_nonstatus_swallowed envNonError goodConn ⟨false, none⟩ rfl (by decide) (by decide)
      (by decide) rfl (Or.inl rfl)).2,
   (c9_nonstatus_swallowed envNoStatus goodConn ⟨true, none⟩ rfl (by decide) (by decide)
      (by decide) rfl (Or.inr rfl)).2⟩

/-- C10: a repository name whose trimmed form is non-empty passes the local
validation, and the original untrimmed name is what is passed verbatim both
to the existence lookup and to onPush: the lookup is issued with exactly the
submitted name and every push call carries exactly the submitted name. -/
theorem c10_untrimmed_name_forwarded (env : Env) (conn : Connection)
    (hconn : env.connection = some conn)
    (htok : tokenTruthy conn.token = true)
    (huser : conn.userLogin ≠ none)
    (hname : jsTrim env.repoName ≠ "") :
    (handleSubmit env).1 ≠ Outcome.blockedEmptyName ∧
    (handleSubmit env).2.lookupCalls = [env.repoName] ∧
    (∀ r ∈ (handleSubmit env).2.pushCalls, r = env.repoName) := by
  have hgate : ¬(tokenTruthy conn.token = false ∨ conn.userLogin = none) := by
    simp [htok, huser]
  have hpush : ∀ lc cc, ((pushStep env lc cc).1 ≠ Outcome.blockedEmptyName ∧
      (pushStep env lc cc).2.lookupCalls = lc ∧
      ∀ r ∈ (pushStep env lc cc).2.pushCalls, r = env.repoName) := by
    intro lc cc
    unfold pushStep
    rcases hp : env.pushResult env.repoName with url | e <;> simp [hp]
  unfold handleSubmit
  rw [hconn]
  simp only [if_neg hgate, if_neg hname]
  split
  · split
    · exact hpush [env.repoName] 1
    · simp
  · split
    · simp
    · exact hpush [env.repoName] 0

/-- Witness for C10: a name with surrounding whitespace passes validation
and is forwarded untrimmed to the lookup. -/
theorem c10_witness :
    (handleSubmit envSpacey).2.lookupCalls = [" demo "] :=
  (c10_untrimmed_name_forwarded envSpacey goodConn rfl (by decide) (by decide) (by decide)).2.1

/-- The stored token is the empty string. -/
def envEmptyTok : Env :=
  { baseEnv with connection := some { userLogin := some "octo", token := some "" } }

/-- The lookup succeeds, the overwrite is confirmed, and onPush throws an
Error with status 401. -/
def envPushAuth : Env :=
  { baseEnv with pushResult := fun _ => PushResult.threw ⟨true, some 401⟩ }

/-- C5 counterexample: a stored token that is a single space (whitespace-only,
so empty after trimming) is NOT blocked by handleSubmit: the run issues the
existence lookup (network access) and does not end in the no-credential
outcome, contradicting the claim that a whitespace-only token is blocked
before any network access. -/
theorem c5_counterexample :
    (handleSubmit envWhitespaceTok).2.lookupCalls = ["demo"] ∧
    (handleSubmit envWhitespaceTok).1 ≠ Outcome.blockedNoCredential := by decide

/-- C5 amended: a credential that is absent, or whose token is missing or the
empty string, is blocked with the no-credential outcome and no remote call;
but any non-empty token — including a whitespace-only one — passes the gate,
and past the other local checks the existence lookup is issued. -/
theorem c5_empty_token_blocked (env : Env) :
    ((env.connection = none ∨
        ∃ conn, env.connection = some conn ∧ (conn.token = none ∨ conn.token = some "")) →
      handleSubmit env =
        (Outcome.blockedNoCredential,
         { lookupCalls := [], confirmCalls := 0, pushCalls := [], credentialCleared := false })) ∧
    (∀ conn t, env.connection = some conn → conn.token = some t → t ≠ "" →
      conn.userLogin ≠ none → jsTrim env.repoName ≠ "" →
      (handleSubmit env).2.lookupCalls = [env.repoName]) := by
  constructor
  · intro h
    rcases h with h | ⟨conn, hconn, htok⟩
    · unfold handleSubmit
      rw [h]
    · have htokF : tokenTruthy conn.token = false := by
        rcases htok with h' | h' <;> simp [h', tokenTruthy]
      unfold handleSubmit
      rw [hconn]
      simp [htokF]
  · intro conn t hconn htok ht huser hname
    have htokT : tokenTruthy conn.token = true := by simp [htok, tokenTruthy, ht]
    have hgate : ¬(tokenTruthy conn.token = false ∨ conn.userLogin = none) := by
      simp [htokT, huser]
    have hpush : ∀ lc cc, (pushStep env lc cc).2.lookupCalls = lc := by
      intro lc cc
      unfold pushStep
      rcases hp : env.pushResult env.repoName with url | e <;> simp [hp]
    unfold handleSubmit
    rw [hconn]
    simp only [if_neg hgate, if_neg hname]
    split
    · split
      · exact hpush [env.repoName] 1
      · simp
    · split
      · simp
      · exact hpush [env.repoName] 0

/-- Witness for C5 amended: the empty-string token is blocked with no remote
call, and the single-space token reaches the existence lookup. -/
theorem c5_witness :
    handleSubmit envEmptyTok =
      (Outcome.blockedNoCredential,
       { lookupCalls := [], confirmCalls := 0, pushCalls := [], credentialCleared := false }) ∧
    (handleSubmit envWhitespaceTok).2.lookupCalls = ["demo"] :=
  ⟨(c5_empty_token_blocked envEmptyTok).1 (Or.inr ⟨_, rfl, Or.inr rfl⟩),
   (c5_empty_token_blocked envWhitespaceTok).2 _ " " rfl rfl (by decide) (by decide) (by decide)⟩

/-- C4 counterexample: three distinct failure categories — an authentication
failure (status 401) on the push, a remote rejection (status 422) on the
push, and a thrown network error with no status — all surface the same
generic user-facing message, contradicting the claim that no two distinct
failure categories produce the same message. -/
theorem c4_counterexample :
    (handleSubmit envPush401).1 = Outcome.failed genericPushFailMsg ∧
    (handleSubmit envPush422).1 = Outcome.failed genericPushFailMsg ∧
    (handleSubmit envPushNet).1 = Outcome.failed genericPushFailMsg := by decide

/-- C4 amended: every error arising from a remote call during the publish
attempt is caught inside handleSubmit and surfaced as a single failed
outcome, but every failed outcome carries the one generic message of the
outer catch — the pipeline does not map failure categories to distinct
user-facing messages. -/
theorem c4_single_generic_failure_message (env : Env) (m : String) (t : Trace)
    (h : handleSubmit env = (Outcome.failed m, t)) : m = genericPushFailMsg := by
  unfold handleSubmit pushStep at h
  iterate 10 (all_goals (try split at h))
  all_goals simp_all

/-- Witness for C4 amended: the network-error run ends failed, and its
message is the generic one. -/
theorem c4_witness : genericPushFailMsg = genericPushFailMsg :=
  c4_single_generic_failure_message envPushNet genericPushFailMsg
    { lookupCalls := ["demo"], confirmCalls := 1, pushCalls := ["demo"], credentialCleared := false }
    (by decide)

/-- C3 counterexample: a 401 authentication failure on the existence lookup
is NOT classified as an authentication failure and does NOT invalidate the
stored credential: the run ends with the generic push-failure message (which
differs from the token-expired message, the only authentication-specific
message in the program) and the trace records no credential removal. -/
theorem c3_counterexample :
    handleSubmit env401 =
      (Outcome.failed genericPushFailMsg,
       { lookupCalls := ["demo"], confirmCalls := 0, pushCalls := [], credentialCleared := false }) ∧
    (handleSubmit env401).2.credentialCleared = false ∧
    genericPushFailMsg ≠ tokenExpiredMsg := by decide

/-- C3 amended: only the recent-repositories fetch gives a 401 the
authentication-expired treatment (token-expired toast and removal of the
stored credential); a 401 thrown by the existence lookup or by the push is
caught by the generic handler of handleSubmit, surfaces the generic
push-failure message, and leaves the stored credential in place. -/
theorem c3_401_handling_per_call :
    (∀ (token : String) (store : Option Connection) (r : FetchResponse),
      ¬(token = "" ∨ jsTrim token = "") → r.ok = false → r.status = 401 →
      (fetchRecentRepos token store (FetchResult.response r)).toasts = [tokenExpiredMsg] ∧
      (fetchRecentRepos token store (FetchResult.response r)).storeAfter = none) ∧
    (∀ (env : Env) (conn : Connection),
      env.connection = some conn → tokenTruthy conn.token = true →
      conn.userLogin ≠ none → jsTrim env.repoName ≠ "" →
      env.lookupResult env.repoName = LookupResult.threw ⟨true, some 401⟩ →
      handleSubmit env =
        (Outcome.failed genericPushFailMsg,
         { lookupCalls := [env.repoName], confirmCalls := 0,
           pushCalls := [], credentialCleared := false })) ∧
    (∀ (env : Env) (conn : Connection),
      env.connection = some conn → tokenTruthy conn.token = true →
      conn.userLogin ≠ none → jsTrim env.repoName ≠ "" →
      env.lookupResult env.repoName = LookupResult.ok → env.confirmResult = true →
      env.pushResult env.repoName = PushResult.threw ⟨true, some 401⟩ →
      handleSubmit env =
        (Outcome.failed genericPushFailMsg,
         { lookupCalls := [env.repoName], confirmCalls := 1,
           pushCalls := [env.repoName], credentialCleared := false })) := by
  refine ⟨?_, ?_, ?_⟩
  · intro token store r hg hok h401
    unfold fetchRecentRepos
    rw [if_neg hg]
    simp [hok, h401]
  · intro env conn hconn htok huser hname hlook
    have hgate : ¬(tokenTruthy conn.token = false ∨ conn.userLogin = none) := by
      simp [htok, huser]
    unfold handleSubmit
    rw [hconn]
    simp only [if_neg hgate, if_neg hname, hlook]
    simp [shouldRethrow]
  · intro env conn hconn htok huser hname hlook hconf hpushr
    have hgate : ¬(tokenTruthy conn.token = false ∨ conn.userLogin = none) := by
      simp [htok, huser]
    unfold handleSubmit
    rw [hconn]
    simp only [if_neg hgate, if_neg hname, hlook, hconf]
    simp [pushStep, hpushr]

/-- Witness for C3 amended: concrete 401 responses on all three remote
calls — the fetch removes the credential and shows the token-expired toast,
while the lookup and the push end with the generic failure and leave the
store untouched. -/
theorem c3_witness :
    ((fetchRecentRepos "ghp_tok123" (some goodConn)
        (FetchResult.response ⟨false, 401, "Unauthorized"⟩)).toasts = [tokenExpiredMsg] ∧
     (fetchRecentRepos "ghp_tok123" (some goodConn)
        (FetchResult.response ⟨false, 401, "Unauthorized"⟩)).storeAfter = none) ∧
    handleSubmit env401 =
      (Outcome.failed genericPushFailMsg,
       { lookupCalls := ["demo"], confirmCalls := 0, pushCalls := [], credentialCleared := false }) ∧
    handleSubmit envPushAuth =
      (Outcome.failed genericPushFailMsg,
       { lookupCalls := ["demo"], confirmCalls := 1, pushCalls := ["demo"], credentialCleared := false }) :=
  ⟨c3_401_handling_per_call.1 "ghp_tok123" (some goodConn) ⟨false, 401, "Unauthorized"⟩
     (by decide) rfl rfl,
   c3_401_handling_per_call.2.1 env401 goodConn rfl (by decide) (by decide) (by decide) rfl,
   c3_401_handling_per_call.2.2 envPushAuth goodConn rfl (by decide) (by decide) (by decide)
     rfl rfl rfl⟩

/-! ## Token redaction (C8) -/

theorem substringTo_token_append (s : String) :
    substringTo ("token " ++ s) 10 = "token " ++ substringTo s 4 := by
  unfold substringTo
  rw [String.data_append, List.take_append_eq_append_take]
  norm_num
  rfl

theorem take4_nil (s1 s2 : String) (h : s1.data.take 4 = s2.data.take 4) (h1 : s1 = "") :
    s2 = "" := by
  subst h1
  rcases s2 with ⟨l⟩
  cases l with
  | nil => rfl
  | cons a t => simp [List.take] at h

/-- C8: noninterference form of token redaction — every string the
fetchRecentRepos code logs that is derived from the token depends on the
token only through the first four characters of its trimmed form, so the
logged diagnostics reveal at most that short fixed-length redacted prefix
and never the full token: two runs whose tokens agree on that prefix log
identical strings. -/
theorem c8_token_redaction (t1 t2 : String) (store1 store2 : Option Connection) (r : FetchResult)
    (h : substringTo (jsTrim t1) 4 = substringTo (jsTrim t2) 4) :
    (fetchRecentRepos t1 store1 r).tokenDerivedLogs =
      (fetchRecentRepos t2 store2 r).tokenDerivedLogs := by
  have hdata : (jsTrim t1).data.take 4 = (jsTrim t2).data.take 4 := congrArg String.data h
  by_cases he : jsTrim t1 = ""
  · have he2 : jsTrim t2 = "" := take4_nil _ _ hdata he
    unfold fetchRecentRepos
    rw [if_pos (Or.inr he), if_pos (Or.inr he2)]
  · have he2 : jsTrim t2 ≠ "" := fun h2 => he (take4_nil _ _ hdata.symm h2)
    have hg1 : ¬(t1 = "" ∨ jsTrim t1 = "") := by
      rintro (h' | h')
      · exact he (by rw [h']; rfl)
      · exact he h'
    have hg2 : ¬(t2 = "" ∨ jsTrim t2 = "") := by
      rintro (h' | h')
      · exact he2 (by rw [h']; rfl)
      · exact he2 h'
    have hph : tokenPrefixLog (jsTrim t1) = tokenPrefixLog (jsTrim t2) := by
      unfold tokenPrefixLog
      rw [if_neg he, if_neg he2, h]
    have hah : authHeaderLog (jsTrim t1) = authHeaderLog (jsTrim t2) := by
      unfold authHeaderLog
      rw [substringTo_token_append, substringTo_token_append, h]
    have heh : errorTokenPrefixLog (jsTrim t1) = errorTokenPrefixLog (jsTrim t2) := by
      unfold errorTokenPrefixLog
      rw [if_neg he, if_neg he2, h]
    unfold fetchRecentRepos
    rw [if_neg hg1, if_neg hg2]
    cases r with
    | threw => simp [hph, hah]
    | response resp =>
        by_cases hok : resp.ok = false
        · by_cases h401 : resp.status = 401
          · simp [hok, h401, hph, hah, heh]
          · simp [hok, h401, hph, hah, heh]
        · simp [hok, hph, hah]

/-- Witness for C8: two concrete tokens sharing only their first four
characters produce identical token-derived log strings on a failing 401
response. -/
theorem c8_witness :
    (fetchRecentRepos "ghp_AAAA1111" (some goodConn)
        (FetchResult.response ⟨false, 401, "Unauthorized"⟩)).tokenDerivedLogs =
      (fetchRecentRepos "ghp_BBBB2222" none
        (FetchResult.response ⟨false, 401, "Unauthorized"⟩)).tokenDerivedLogs :=
  c8_token_redaction "ghp_AAAA1111" "ghp_BBBB2222" (some goodConn) none
    (FetchResult.response ⟨false, 401, "Unauthorized"⟩) (by decide)

end PushDialog
